import Mathlib

/-!
# Verification of the SQLocal client orchestration layer

Shallow embedding of `src/client.ts` (the `SQLocal` class): the
correlation-keyed request/response protocol, the mutation-lock admission
discipline, the transaction wrapper, result shaping for single and batch
execution, user-function registration, database-file overwrite/delete, and
teardown.  Stateful TypeScript is modelled as pure functions over an explicit
`ClientState`, with round-trip outcomes supplied as explicit `Except` values
and observable actions recorded in event traces.
-/

deriving instance DecidableEq for Except

namespace SQLocal

/-- Correlation key (`QueryKey` in `types.ts`); opaque unique token, modelled
as a natural number. -/
abbrev QueryKey := Nat

/-- Error payloads carried by `error` envelopes and thrown `Error`s. -/
abbrev Err := String

/-- Opaque SQL cell value appearing in result rows. -/
abbrev Value := Int

/-- Database metadata payload of `info` envelopes. -/
abbrev DatabaseInfo := String

/-- `RawResultData` from `types.ts`: one result set of rows and column
names. -/
structure RawResultData where
  rows : List (List Value)
  columns : List String
  deriving DecidableEq, Repr

/-- The empty, well-formed result set `{ rows: [], columns: [] }`. -/
def emptyResult : RawResultData := { rows := [], columns := [] }

/-- The kinds of request envelopes the client can pass to `createQuery`
(`query`, `batch`, `transaction`, `function`, `import`, `getinfo`, `delete`,
`destroy`); `importMsg` models the `'import'` tag (a Lean keyword). -/
inductive MessageType where
  | query
  | batch
  | transaction
  | function
  | importMsg
  | getinfo
  | delete
  | destroy
  deriving DecidableEq, Repr

/-- Inbound `OutputMessage` envelopes from the worker: terminal kinds
(`success`, `data`, `error`, `info`) carrying an optional correlation key, plus
`callback` invocations and the `event` connect notice. -/
inductive OutputMessage where
  | success (queryKey : Option QueryKey)
  | data (queryKey : Option QueryKey) (data : List RawResultData)
  | error (queryKey : Option QueryKey) (error : Err)
  | info (queryKey : Option QueryKey) (info : DatabaseInfo)
  | callback (name : String) (args : List Value)
  | event
  deriving DecidableEq, Repr

/-- Client-side state of a `SQLocal` instance: whether a `Worker` was
attached (`worker` is defined), the `isWorkerDestroyed` and
`bypassMutationLock` flags, whether the coincident `proxy` exists, the names
registered in `userCallbacks`, the worker-proxy scalar-function slots, and the
correlation keys outstanding in `queriesInProgress`. -/
structure ClientState where
  workerAttached : Bool
  isWorkerDestroyed : Bool
  bypassMutationLock : Bool
  proxyAttached : Bool
  userCallbacks : List String
  proxySlots : List String
  queriesInProgress : List QueryKey
  deriving DecidableEq, Repr

/-- Observable outcome of dispatching one inbound message in
`processMessageEvent`: the waiting call's handle is resolved or rejected, an
unmatched error is re-thrown as an unhandled fault, a registered callback is
invoked, the `onConnect` hook fires, or nothing happens. -/
inductive DispatchEffect where
  | resolved (key : QueryKey) (message : OutputMessage)
  | rejected (key : QueryKey) (error : Err)
  | unhandledFault (error : Err)
  | callbackInvoked (name : String) (args : List Value)
  | connectFired
  | noEffect
  deriving DecidableEq, Repr

/-- Shared handling of the four terminal kinds in `processMessageEvent`:
`if (message.queryKey && queries.has(message.queryKey))` complete and delete
the entry (reject for `error`, resolve otherwise);
`else if (message.type === 'error') throw message.error`. -/
def handleTerminal (s : ClientState) (m : OutputMessage)
    (queryKey : Option QueryKey) (err : Option Err) :
    ClientState × DispatchEffect :=
  match queryKey with
  | some k =>
      if s.queriesInProgress.contains k then
        ({ s with queriesInProgress := s.queriesInProgress.erase k },
          match err with
          | some e => .rejected k e
          | none => .resolved k m)
      else
        match err with
        | some e => (s, .unhandledFault e)
        | none => (s, .noEffect)
  | none =>
      match err with
      | some e => (s, .unhandledFault e)
      | none => (s, .noEffect)

/-- `SQLocal.processMessageEvent`: demultiplex one inbound envelope. -/
def processMessageEvent (s : ClientState) (m : OutputMessage) :
    ClientState × DispatchEffect :=
  match m with
  | .success qk => handleTerminal s m qk none
  | .data qk _ => handleTerminal s m qk none
  | .error qk e => handleTerminal s m qk (some e)
  | .info qk _ => handleTerminal s m qk none
  | .callback nm args =>
      if s.userCallbacks.contains nm then
        (s, .callbackInvoked nm args)
      else
        (s, .noEffect)
  | .event => (s, .connectFired)

/-- A terminal envelope (`success`, `data`, `error`, `info`), its correlation
key, and its error payload when it is of `error` kind. -/
def terminalKey? : OutputMessage → Option (Option QueryKey)
  | .success qk => some qk
  | .data qk _ => some qk
  | .info qk _ => some qk
  | .error qk _ => some qk
  | _ => none

/-- The error payload of an `error`-kind envelope. -/
def errorPayload? : OutputMessage → Option Err
  | .error _ e => some e
  | _ => none

/-! ## Mutation lock and event traces -/

/-- Acquisition modes of the mutation lock. -/
inductive LockMode where
  | shared
  | exclusive
  deriving DecidableEq, Repr

/-- The three transaction round trips (`action: 'begin' | 'commit' |
'rollback'`). -/
inductive TxAction where
  | beginTx
  | commit
  | rollback
  deriving DecidableEq, Repr

/-- Observable actions of a client operation, recorded in order: lock
acquisition and release, posting a request envelope to the worker, writing the
`bypassMutationLock` flag, running a caller-supplied `beforeUnlock` hook,
posting on the reinitialization broadcast channel, and issuing a transaction
round trip. -/
inductive Event where
  | lockAcquire (mode : LockMode)
  | lockRelease
  | post (t : MessageType) (key : QueryKey)
  | setBypass (b : Bool)
  | hookRun
  | reinitPost (channel : String) (payload : QueryKey)
  | txRequest (a : TxAction)
  deriving DecidableEq, Repr

/-- Modelled from the spec: `lib/mutation-lock.ts` (`mutationLock`) is not
under `src/`; per §4.2 it acquires a lock of the given mode before running the
guarded operation unless `bypass` is true (in which case acquisition is
skipped entirely), and release is guaranteed on every exit path of the guarded
operation, including thrown failures.  The guarded operation is given as its
event trace and outcome. -/
def mutationLock (mode : LockMode) (bypass : Bool)
    (op : List Event × Except Err α) : List Event × Except Err α :=
  if bypass then op
  else (Event.lockAcquire mode :: op.1 ++ [Event.lockRelease], op.2)

/-- The connection error thrown by `createQuery` when `this.worker` is
undefined. -/
def connectionError : Err :=
  "This SQLocal client is not connected to a database. This is likely due to the client being initialized in a server-side environment."

/-- The error thrown by `createQuery` when `this.isWorkerDestroyed === true`. -/
def destroyedError : Err :=
  "This SQLocal client has been destroyed. You will need to initialize a new client in order to make further queries."

/-- The bypass argument `createQuery` passes to `mutationLock`:
`this.bypassMutationLock || message.type === 'import' || message.type ===
'delete'`. -/
def createQueryBypass (s : ClientState) (t : MessageType) : Bool :=
  s.bypassMutationLock || t == .importMsg || t == .delete

/-- The completion the pending handle registered by `createQuery` receives
when its correlated response arrives: `processMessageEvent` rejects the call
with the error payload for an `error` envelope and resolves it with the whole
message otherwise. -/
def awaitOutcome (resp : OutputMessage) : Except Err OutputMessage :=
  match resp with
  | .error _ e => .error e
  | m => .ok m

/-- Body of `SQLocal.createQuery` (the callback handed to `mutationLock`):
throw synchronously if no worker is attached or the client is destroyed,
otherwise post the envelope stamped with a fresh correlation key and await the
correlated response `resp`. -/
def createQueryBody (s : ClientState) (t : MessageType) (k : QueryKey)
    (resp : OutputMessage) : List Event × Except Err OutputMessage :=
  if s.workerAttached = false then
    ([], .error connectionError)
  else if s.isWorkerDestroyed = true then
    ([], .error destroyedError)
  else
    ([Event.post t k], awaitOutcome resp)

/-- `SQLocal.createQuery` as one round trip: admission through `mutationLock`
in `shared` mode with the computed bypass, then the body. -/
def createQueryRT (s : ClientState) (t : MessageType) (k : QueryKey)
    (resp : OutputMessage) : List Event × Except Err OutputMessage :=
  mutationLock .shared (createQueryBypass s t) (createQueryBody s t k resp)

/-! ## Result shaping: `exec` and `execBatch` -/

/-- Result shaping in `SQLocal.exec`: start from `{ rows: [], columns: [] }`
and, when the response is of `data` kind, take `message.data[0]?.rows ?? []`
and `message.data[0]?.columns ?? []`. -/
def execShape (m : OutputMessage) : RawResultData :=
  match m with
  | .data _ ds =>
      { rows := (ds.headD emptyResult).rows,
        columns := (ds.headD emptyResult).columns }
  | _ => emptyResult

/-- `SQLocal.exec`: one `query` round trip through `createQuery`, then shape
the response. -/
def exec (s : ClientState) (k : QueryKey) (resp : OutputMessage) :
    List Event × Except Err RawResultData :=
  ((createQueryRT s .query k resp).1,
    (createQueryRT s .query k resp).2.map execShape)

/-- Result shaping in `SQLocal.execBatch` for `n` statements:
`new Array(n).fill({rows: [], columns: []})` then, for a `data` response,
`message.data.forEach((result, i) => { data[i] = result })`.  JavaScript index
assignment past the end of the array appends, so the result is the engine's
sets followed by padding up to `n`. -/
def execBatchShape (n : Nat) (m : OutputMessage) : List RawResultData :=
  match m with
  | .data _ ds => ds ++ List.replicate (n - ds.length) emptyResult
  | _ => List.replicate n emptyResult

/-- `SQLocal.execBatch`: one `batch` round trip through `createQuery`, then
shape the response against the statement count `n`. -/
def execBatch (s : ClientState) (n : Nat) (k : QueryKey)
    (resp : OutputMessage) : List Event × Except Err (List RawResultData) :=
  ((createQueryRT s .batch k resp).1,
    (createQueryRT s .batch k resp).2.map (execBatchShape n))

/-- Number of request envelopes posted to the worker in a trace. -/
def postCount (tr : List Event) : Nat :=
  tr.countP fun e =>
    match e with
    | .post _ _ => true
    | _ => false

/-! ## The structured transaction wrapper -/

/-- Outcomes of the four round trips a structured transaction can perform:
the `begin` request issued by `beginTransaction`, the caller-supplied body,
and the `commit` and `rollback` requests. -/
structure TxOutcomes (R : Type) where
  beginOutcome : Except Err Unit
  bodyOutcome : Except Err R
  commitOutcome : Except Err Unit
  rollbackOutcome : Except Err Unit

/-- The `try`/`catch` inside `SQLocal.transaction`:
`tx = await this.beginTransaction(); result = await transaction(...);
await tx.commit(); return result` with
`catch (err) { await tx?.rollback(); throw err; }`.  When `begin` itself
fails, `tx` is still `undefined`, so `tx?.rollback()` is skipped.  When the
body or `commit` fails, `await tx.rollback()` runs first; if that rollback
round trip rejects, its error propagates out of the `catch` block and the
`throw err` re-raising the original failure is never reached. -/
def transactionBody (o : TxOutcomes R) : List Event × Except Err R :=
  match o.beginOutcome with
  | .error e => ([Event.txRequest .beginTx], .error e)
  | .ok _ =>
    match o.bodyOutcome with
    | .error e =>
        ([Event.txRequest .beginTx, Event.txRequest .rollback],
          match o.rollbackOutcome with
          | .error re => .error re
          | .ok _ => .error e)
    | .ok r =>
      match o.commitOutcome with
      | .error e =>
          ([Event.txRequest .beginTx, Event.txRequest .commit,
            Event.txRequest .rollback],
            match o.rollbackOutcome with
            | .error re => .error re
            | .ok _ => .error e)
      | .ok _ =>
          ([Event.txRequest .beginTx, Event.txRequest .commit], .ok r)

/-- `SQLocal.transaction`: exclusive `mutationLock` admission (no bypass),
`this.bypassMutationLock = true` on entry, the `try`/`catch` body, and
`finally { this.bypassMutationLock = false }`. -/
def transaction (o : TxOutcomes R) : List Event × Except Err R :=
  mutationLock .exclusive false
    (Event.setBypass true :: (transactionBody o).1 ++ [Event.setBypass false],
      (transactionBody o).2)

/-! ## File overwrite and delete -/

/-- The broadcast channel name the constructor derives from the database
path. -/
def reinitChannelName (databasePath : String) : String :=
  "_sqlocal_reinit_(" ++ databasePath ++ ")"

/-- Shared body of `overwriteDatabaseFile` and `deleteDatabaseFile` (the two
methods are textually parallel, differing only in the request kind `t`):
inside `mutationLock('exclusive', false, ...)`, a `try` block issues the
file import/delete round trip, then, when a `beforeUnlock` hook exists, sets
`bypassMutationLock = true` and awaits the hook, then posts the client key on
the reinitialization channel; `finally { this.bypassMutationLock = false }`.
`hook` is `none` when no hook was supplied, otherwise the hook's outcome. -/
def fileMutationTry (t : MessageType) (s : ClientState) (k : QueryKey)
    (resp : OutputMessage) (hook : Option (Except Err Unit))
    (databasePath : String) (clientKey : QueryKey) :
    List Event × Except Err Unit :=
  match (createQueryRT s t k resp).2, hook with
  | .error e, _ => ((createQueryRT s t k resp).1, .error e)
  | .ok _, none =>
      ((createQueryRT s t k resp).1 ++
        [Event.reinitPost (reinitChannelName databasePath) clientKey], .ok ())
  | .ok _, some (.ok _) =>
      ((createQueryRT s t k resp).1 ++
        [Event.setBypass true, Event.hookRun,
          Event.reinitPost (reinitChannelName databasePath) clientKey], .ok ())
  | .ok _, some (.error e) =>
      ((createQueryRT s t k resp).1 ++
        [Event.setBypass true, Event.hookRun], .error e)

/-- The whole guarded operation of a file mutation: the `try` block above with
`finally { this.bypassMutationLock = false }`, admitted through
`mutationLock('exclusive', false, ...)`. -/
def fileMutation (t : MessageType) (s : ClientState) (k : QueryKey)
    (resp : OutputMessage) (hook : Option (Except Err Unit))
    (databasePath : String) (clientKey : QueryKey) :
    List Event × Except Err Unit :=
  mutationLock .exclusive false
    ((fileMutationTry t s k resp hook databasePath clientKey).1 ++
      [Event.setBypass false],
      (fileMutationTry t s k resp hook databasePath clientKey).2)

/-- `SQLocal.overwriteDatabaseFile`: the file mutation with an `import`
request. -/
def overwriteDatabaseFile (s : ClientState) (k : QueryKey)
    (resp : OutputMessage) (hook : Option (Except Err Unit))
    (databasePath : String) (clientKey : QueryKey) :
    List Event × Except Err Unit :=
  fileMutation .importMsg s k resp hook databasePath clientKey

/-- `SQLocal.deleteDatabaseFile`: the file mutation with a `delete`
request. -/
def deleteDatabaseFile (s : ClientState) (k : QueryKey)
    (resp : OutputMessage) (hook : Option (Except Err Unit))
    (databasePath : String) (clientKey : QueryKey) :
    List Event × Except Err Unit :=
  fileMutation .delete s k resp hook databasePath clientKey

/-! ## Teardown and user-function registration -/

/-- `SQLocal.destroy`: first `await this.createQuery({ type: 'destroy' })`;
only if that round trip resolves does the client detach the message listener,
clear `queriesInProgress` and `userCallbacks` (completing none of the cleared
handles — the returned effect list is the completions performed on them, which
is empty), close the channel, terminate the worker and set
`isWorkerDestroyed = true`.  If the round trip rejects, the state is left
untouched and the error propagates. -/
def destroy (s : ClientState) (k : QueryKey) (resp : OutputMessage) :
    List Event × ClientState × List DispatchEffect × Except Err Unit :=
  ((createQueryRT s .destroy k resp).1,
    match (createQueryRT s .destroy k resp).2 with
    | .error e => (s, [], .error e)
    | .ok _ =>
        ({ s with
            queriesInProgress := [],
            userCallbacks := [],
            isWorkerDestroyed := true },
          [], .ok ()))

/-- JavaScript `Map.set` / proxy-slot assignment keyed by name: the name is
registered; registering an already-present name keeps the key set
unchanged. -/
def mapSet (names : List String) (nm : String) : List String :=
  if names.contains nm then names else names ++ [nm]

/-- `SQLocal.createCallbackFunction`: `await this.createQuery({ type:
'function', ... })`, then `this.userCallbacks.set(funcName, func)`.  If the
round trip rejects, the `set` is never reached and the state is returned
unchanged. -/
def createCallbackFunction (s : ClientState) (funcName : String)
    (k : QueryKey) (resp : OutputMessage) :
    List Event × ClientState × Except Err Unit :=
  ((createQueryRT s .function k resp).1,
    match (createQueryRT s .function k resp).2 with
    | .error e => (s, .error e)
    | .ok _ =>
        ({ s with userCallbacks := mapSet s.userCallbacks funcName }, .ok ()))

/-- `SQLocal.createScalarFunction`: `await this.createQuery({ type:
'function', ... })`, then `if (this.proxy) this.proxy[...] = func`.  If the
round trip rejects, the proxy slot is never written. -/
def createScalarFunction (s : ClientState) (funcName : String)
    (k : QueryKey) (resp : OutputMessage) :
    List Event × ClientState × Except Err Unit :=
  ((createQueryRT s .function k resp).1,
    match (createQueryRT s .function k resp).2 with
    | .error e => (s, .error e)
    | .ok _ =>
        (if s.proxyAttached then
          { s with proxySlots := mapSet s.proxySlots funcName }
        else s,
        .ok ()))

/-- Final value of the `bypassMutationLock` flag after replaying the
`setBypass` writes of a trace over an initial value. -/
def finalBypass (b : Bool) : List Event → Bool
  | [] => b
  | Event.setBypass v :: rest => finalBypass v rest
  | _ :: rest => finalBypass b rest

/-- Whether a fallible call succeeded. -/
def exceptOk : Except Err α → Bool
  | .ok _ => true
  | .error _ => false

/-- A concrete client that attached to a worker, holds no locks and has
nothing pending: the state right after a successful constructor run in a
browser context. -/
def readyState : ClientState :=
  { workerAttached := true
    isWorkerDestroyed := false
    bypassMutationLock := false
    proxyAttached := true
    userCallbacks := []
    proxySlots := []
    queriesInProgress := [] }

/-! ## General lemmas about the model -/

theorem mutationLock_snd (m : LockMode) (b : Bool)
    (op : List Event × Except Err α) : (mutationLock m b op).2 = op.2 := by
  unfold mutationLock
  split <;> rfl

theorem postCount_mutationLock (m : LockMode) (b : Bool)
    (op : List Event × Except Err α) :
    postCount (mutationLock m b op).1 = postCount op.1 := by
  unfold mutationLock
  split
  · rfl
  · simp [postCount, List.countP_cons, List.countP_append]

theorem finalBypass_append (b : Bool) (l₁ l₂ : List Event) :
    finalBypass b (l₁ ++ l₂) = finalBypass (finalBypass b l₁) l₂ := by
  induction l₁ generalizing b with
  | nil => rfl
  | cons e rest ih => cases e <;> simp [finalBypass, ih]

theorem lockAcquire_not_mem_body (s : ClientState) (t : MessageType)
    (k : QueryKey) (resp : OutputMessage) (m : LockMode) :
    Event.lockAcquire m ∉ (createQueryBody s t k resp).1 := by
  unfold createQueryBody
  split
  · simp
  · split <;> simp

theorem mem_mapSet (l : List String) (nm : String) : nm ∈ mapSet l nm := by
  unfold mapSet
  split
  · next h => simpa using h
  · simp

/-! ## Claim theorems -/

/-- C3: For every inbound terminal message (`success`, `data`, `error`,
`info`): if its correlation key is present in the Pending Call Table, the
waiting call is completed exactly once (rejected for `error` kind, resolved
otherwise) and the entry is removed; if the key is absent (or the message
carries no key), a `success`/`data`/`info` message is a no-op, while an
`error` message with no matching entry escalates as an unrecoverable
unhandled fault. -/
theorem C3_terminal_dispatch (s : ClientState) (m : OutputMessage) :
    (∀ k, terminalKey? m = some (some k) →
      s.queriesInProgress.contains k = true →
      processMessageEvent s m =
        ({ s with queriesInProgress := s.queriesInProgress.erase k },
          match errorPayload? m with
          | some e => DispatchEffect.rejected k e
          | none => DispatchEffect.resolved k m)) ∧
    (∀ k, terminalKey? m = some (some k) →
      s.queriesInProgress.contains k = false →
      processMessageEvent s m =
        (s, match errorPayload? m with
            | some e => DispatchEffect.unhandledFault e
            | none => DispatchEffect.noEffect)) ∧
    (terminalKey? m = some none →
      processMessageEvent s m =
        (s, match errorPayload? m with
            | some e => DispatchEffect.unhandledFault e
            | none => DispatchEffect.noEffect)) := by
  refine ⟨?_, ?_, ?_⟩
  · intro k hk hc
    cases m <;> simp_all [terminalKey?, errorPayload?, processMessageEvent,
      handleTerminal]
  · intro k hk hc
    cases m <;> simp_all [terminalKey?, errorPayload?, processMessageEvent,
      handleTerminal]
  · intro hk
    cases m <;> simp_all [terminalKey?, errorPayload?, processMessageEvent,
      handleTerminal]

/-- Witness for C3: an `error` envelope correlated to pending key `5` rejects
that call and removes the entry. -/
theorem C3_terminal_dispatch_witness :
    processMessageEvent { readyState with queriesInProgress := [5] }
      (.error (some 5) "boom") =
    ({ readyState with queriesInProgress := [] },
      DispatchEffect.rejected 5 "boom") := by
  have h := (C3_terminal_dispatch { readyState with queriesInProgress := [5] }
    (.error (some 5) "boom")).1 5 rfl (by decide)
  simpa [readyState] using h

/-- A transaction run whose body fails and whose rollback round trip also
fails. -/
def txBothFail : TxOutcomes Unit :=
  { beginOutcome := .ok ()
    bodyOutcome := .error "body failure"
    commitOutcome := .ok ()
    rollbackOutcome := .error "rollback failure" }

/-- C1 counterexample: when the body fails with `"body failure"` and the
rollback round trip then rejects with `"rollback failure"`, the rollback
request is issued, but the error reaching the caller is the rollback failure,
not the original body failure: inside `catch (err) { await tx?.rollback();
throw err; }` a rejected rollback aborts the `catch` block before
`throw err` runs.  This refutes the claim that a rollback failure never
replaces the original error. -/
theorem C1_counterexample :
    Event.txRequest .rollback ∈ (transaction txBothFail).1 ∧
      (transaction txBothFail).2 = .error "rollback failure" ∧
      (transaction txBothFail).2 ≠ .error "body failure" := by
  refine ⟨by decide, rfl, ?_⟩
  intro h
  simp [transaction, mutationLock, transactionBody, txBothFail] at h

/-- C1 amended: after a successful `begin`, if the body (or the commit round
trip) fails, a rollback request is issued before the failure propagates; if
the rollback round trip succeeds, the original failure is re-thrown to the
caller, but if the rollback round trip itself fails, the rollback error
replaces the original error as the transaction's outcome. -/
theorem C1_transaction_rollback {R : Type} (o : TxOutcomes R) (e : Err) :
    (o.beginOutcome = .ok () → o.bodyOutcome = .error e →
      Event.txRequest .rollback ∈ (transaction o).1 ∧
      (transaction o).2 =
        (match o.rollbackOutcome with
         | .ok _ => .error e
         | .error re => .error re)) ∧
    (o.beginOutcome = .ok () → (∃ r, o.bodyOutcome = .ok r) →
      o.commitOutcome = .error e →
      Event.txRequest .rollback ∈ (transaction o).1 ∧
      (transaction o).2 =
        (match o.rollbackOutcome with
         | .ok _ => .error e
         | .error re => .error re)) := by
  obtain ⟨ob, obody, oc, orb⟩ := o
  constructor
  · intro hb hbody
    simp only at hb hbody
    subst hb hbody
    cases orb <;>
      simp [transaction, mutationLock, transactionBody]
  · intro hb hbody hc
    simp only at hb hc
    obtain ⟨r, hr⟩ := hbody
    simp only at hr
    subst hb hr hc
    cases orb <;>
      simp [transaction, mutationLock, transactionBody]

/-- Witness for C1: a body failure with a successful rollback issues the
rollback request and re-throws the body failure. -/
theorem C1_transaction_rollback_witness :
    Event.txRequest .rollback ∈
      (transaction (⟨.ok (), .error "boom", .ok (), .ok ()⟩ : TxOutcomes Unit)).1 ∧
    (transaction (⟨.ok (), .error "boom", .ok (), .ok ()⟩ : TxOutcomes Unit)).2 =
      .error "boom" := by
  have h := (C1_transaction_rollback
    (⟨.ok (), .error "boom", .ok (), .ok ()⟩ : TxOutcomes Unit) "boom").1 rfl rfl
  simpa using h

/-- A client that never attached to a worker (`typeof globalThis.Worker ===
'undefined'`, e.g. a server-side context). -/
def noWorkerState : ClientState :=
  { readyState with workerAttached := false, proxyAttached := false }

/-- C2 counterexample: a `query` call on a client that never attached to a
worker does fail, but only inside the `mutationLock` callback: the shared
lock is acquired (and released) before the connection check runs, refuting
"before any lock wait".  The check also runs inside an async admission, so
the failure is a promise rejection, not a synchronous throw. -/
theorem C2_counterexample :
    Event.lockAcquire .shared ∈
      (createQueryRT noWorkerState .query 0 (.success none)).1 ∧
    exceptOk (createQueryRT noWorkerState .query 0 (.success none)).2 = false := by
  decide

/-- C2 amended: every operation on a destroyed client, or on a client that
never attached to a worker, fails before any message is posted to the engine
(no round trip is attempted); but the failing check runs inside the
mutation-lock admission, so a call that is not bypassed first waits for and
acquires the shared lock, and the failure is delivered as a rejection of the
returned promise rather than a synchronous throw. -/
theorem C2_destroyed_or_detached_fails (s : ClientState) (t : MessageType)
    (k : QueryKey) (resp : OutputMessage)
    (h : s.workerAttached = false ∨ s.isWorkerDestroyed = true) :
    exceptOk (createQueryRT s t k resp).2 = false ∧
      postCount (createQueryRT s t k resp).1 = 0 := by
  constructor
  · rw [createQueryRT, mutationLock_snd]
    unfold createQueryBody
    rcases h with h | h <;> cases hw : s.workerAttached <;>
      simp_all [exceptOk]
  · rw [createQueryRT, postCount_mutationLock]
    unfold createQueryBody
    rcases h with h | h <;> cases hw : s.workerAttached <;>
      simp_all [postCount]

/-- Witness for C2: a `query` on a destroyed client fails with no message
posted. -/
theorem C2_destroyed_or_detached_fails_witness :
    exceptOk (createQueryRT { readyState with isWorkerDestroyed := true }
      .query 3 (.success none)).2 = false ∧
    postCount (createQueryRT { readyState with isWorkerDestroyed := true }
      .query 3 (.success none)).1 = 0 :=
  C2_destroyed_or_detached_fails
    { readyState with isWorkerDestroyed := true } .query 3 (.success none)
    (Or.inr rfl)

/-- C4: when `destroy` completes (its `destroy` round trip resolves), every
call pending at that moment is left permanently unsettled — the Pending Call
Table is cleared and no resolve or reject effect is emitted for any cleared
handle — and every call issued against the resulting state fails. -/
theorem C4_destroy_abandons_pending (s : ClientState) (k : QueryKey)
    (resp : OutputMessage) (h : (destroy s k resp).2.2.2 = .ok ()) :
    (destroy s k resp).2.1.queriesInProgress = [] ∧
    (destroy s k resp).2.2.1 = [] ∧
    ∀ (t : MessageType) (k' : QueryKey) (resp' : OutputMessage),
      exceptOk (createQueryRT (destroy s k resp).2.1 t k' resp').2 = false := by
  rcases hq : (createQueryRT s .destroy k resp).2 with e | m
  · rw [destroy, hq] at h
    simp at h
  · rw [destroy, hq] at h ⊢
    refine ⟨rfl, rfl, ?_⟩
    intro t k' resp'
    rw [createQueryRT, mutationLock_snd]
    unfold createQueryBody
    cases hw : s.workerAttached <;> simp [hw, exceptOk]

/-- Witness for C4: destroying a healthy client with keys 7 and 8 pending
clears the table, settles neither, and a later `query` call fails. -/
theorem C4_destroy_abandons_pending_witness :
    (destroy { readyState with queriesInProgress := [7, 8] } 9
      (.success (some 9))).2.1.queriesInProgress = [] ∧
    (destroy { readyState with queriesInProgress := [7, 8] } 9
      (.success (some 9))).2.2.1 = [] ∧
    ∀ (t : MessageType) (k' : QueryKey) (resp' : OutputMessage),
      exceptOk (createQueryRT
        (destroy { readyState with queriesInProgress := [7, 8] } 9
          (.success (some 9))).2.1 t k' resp').2 = false :=
  C4_destroy_abandons_pending { readyState with queriesInProgress := [7, 8] }
    9 (.success (some 9)) rfl

/-- Two result sets, for exercising a batch that requested only one. -/
def twoSets : List RawResultData :=
  [{ rows := [[1]], columns := ["a"] }, { rows := [[2]], columns := ["b"] }]

/-- C5 counterexample: a batch of 1 statement whose `data` response carries 2
result sets returns 2 result sets, not exactly 1:
`message.data.forEach((result, i) => { data[i] = result })` writes past the
end of the length-1 prefilled array and extends it. -/
theorem C5_counterexample :
    (execBatch readyState 1 0 (.data (some 0) twoSets)).2 = .ok twoSets ∧
      twoSets.length ≠ 1 := by
  exact ⟨rfl, by decide⟩

/-- C5 amended: batch execution for `n` statements returns
`max n m` result sets, where `m` is the number of sets in the engine's `data`
response: the engine's sets in order, padded with empty results up to `n`
when `m < n` (and with the extra engine sets kept when `m > n`); a `success`
or `info` response yields `n` empty results; an `error` response rejects the
call.  Exactly one request is posted. -/
theorem C5_batch_shape (s : ClientState) (n : Nat) (k : QueryKey)
    (resp : OutputMessage) (h : s.workerAttached = true)
    (h2 : s.isWorkerDestroyed = false) :
    postCount (execBatch s n k resp).1 = 1 ∧
    (∀ qk ds out, resp = .data qk ds → (execBatch s n k resp).2 = .ok out →
      out.length = max n ds.length ∧
      (∀ i, i < ds.length → out[i]? = ds[i]?) ∧
      (∀ i, ds.length ≤ i → i < n → out[i]? = some emptyResult)) ∧
    (∀ qk, resp = .success qk →
      (execBatch s n k resp).2 = .ok (List.replicate n emptyResult)) ∧
    (∀ qk nfo, resp = .info qk nfo →
      (execBatch s n k resp).2 = .ok (List.replicate n emptyResult)) ∧
    (∀ qk e, resp = .error qk e → (execBatch s n k resp).2 = .error e) := by
  have hbody : (createQueryRT s .batch k resp).2 = awaitOutcome resp := by
    rw [createQueryRT, mutationLock_snd]
    unfold createQueryBody
    simp [h, h2]
  have hsnd : (execBatch s n k resp).2 =
      ((createQueryRT s .batch k resp).2).map (execBatchShape n) := rfl
  refine ⟨?_, ?_, ?_, ?_, ?_⟩
  · rw [show (execBatch s n k resp).1 = (createQueryRT s .batch k resp).1
      from rfl, createQueryRT, postCount_mutationLock]
    unfold createQueryBody
    simp [h, h2, postCount]
  · intro qk ds out hresp hout
    rw [hsnd, hbody, hresp] at hout
    simp [awaitOutcome, execBatchShape, Except.map] at hout
    subst hout
    refine ⟨?_, ?_, ?_⟩
    · simp only [List.length_append, List.length_replicate]
      omega
    · intro i hi
      simp [List.getElem?_append, hi]
    · intro i hge hlt
      rw [List.getElem?_append_right hge]
      simp only [List.getElem?_replicate]
      rw [if_pos (by omega)]
  · intro qk hresp
    rw [hsnd, hbody, hresp]
    simp [awaitOutcome, execBatchShape, Except.map]
  · intro qk nfo hresp
    rw [hsnd, hbody, hresp]
    simp [awaitOutcome, execBatchShape, Except.map]
  · intro qk e hresp
    rw [hsnd, hbody, hresp]
    simp [awaitOutcome, Except.map]

/-- Witness for C5: a batch of 2 statements whose response carries 1 set
returns that set padded with one empty result. -/
theorem C5_batch_shape_witness :
    (execBatch readyState 2 0
      (.data (some 0) [{ rows := [[1]], columns := ["a"] }])).2 =
      .ok [{ rows := [[1]], columns := ["a"] }, emptyResult] ∧
    ([{ rows := [[1]], columns := ["a"] }, emptyResult] :
      List RawResultData).length = max 2 1 := by
  have h := (C5_batch_shape readyState 2 0
    (.data (some 0) [{ rows := [[1]], columns := ["a"] }]) rfl rfl).2.1
    (some 0) [{ rows := [[1]], columns := ["a"] }]
    [{ rows := [[1]], columns := ["a"] }, emptyResult] rfl (by decide)
  exact ⟨by decide, by rw [h.1]; rfl⟩

/-- C6: single-statement execution posts exactly one request (of `query`
kind) and returns only the first result set of a `data` response, ignoring
any additional sets; a `data` response with no result set, or a `success` or
`info` response, yields the empty well-formed result; an `error` response
rejects the call. -/
theorem C6_exec_first_set (s : ClientState) (k : QueryKey)
    (resp : OutputMessage) (h : s.workerAttached = true)
    (h2 : s.isWorkerDestroyed = false) :
    postCount (exec s k resp).1 = 1 ∧
    Event.post .query k ∈ (exec s k resp).1 ∧
    (∀ qk d rest, resp = .data qk (d :: rest) → (exec s k resp).2 = .ok d) ∧
    (∀ qk, resp = .data qk [] → (exec s k resp).2 = .ok emptyResult) ∧
    (∀ qk, resp = .success qk → (exec s k resp).2 = .ok emptyResult) ∧
    (∀ qk nfo, resp = .info qk nfo → (exec s k resp).2 = .ok emptyResult) ∧
    (∀ qk e, resp = .error qk e → (exec s k resp).2 = .error e) := by
  have hbody : (createQueryRT s .query k resp).2 = awaitOutcome resp := by
    rw [createQueryRT, mutationLock_snd]
    unfold createQueryBody
    simp [h, h2]
  have hsnd : (exec s k resp).2 =
      ((createQueryRT s .query k resp).2).map execShape := rfl
  have htr : (exec s k resp).1 = (createQueryRT s .query k resp).1 := rfl
  refine ⟨?_, ?_, ?_, ?_, ?_, ?_, ?_⟩
  · rw [htr, createQueryRT, postCount_mutationLock]
    unfold createQueryBody
    simp [h, h2, postCount]
  · rw [htr, createQueryRT]
    unfold mutationLock createQueryBody
    simp [h, h2]
    split <;> simp
  · intro qk d rest hresp
    rw [hsnd, hbody, hresp]
    simp [awaitOutcome, execShape, Except.map]
  · intro qk hresp
    rw [hsnd, hbody, hresp]
    simp [awaitOutcome, execShape, Except.map, emptyResult]
  · intro qk hresp
    rw [hsnd, hbody, hresp]
    simp [awaitOutcome, execShape, Except.map]
  · intro qk nfo hresp
    rw [hsnd, hbody, hresp]
    simp [awaitOutcome, execShape, Except.map]
  · intro qk e hresp
    rw [hsnd, hbody, hresp]
    simp [awaitOutcome, Except.map]

/-- Witness for C6: a `data` response carrying two sets returns only the
first. -/
theorem C6_exec_first_set_witness :
    (exec readyState 1 (.data (some 1) twoSets)).2 =
      .ok { rows := [[1]], columns := ["a"] } ∧
    postCount (exec readyState 1 (.data (some 1) twoSets)).1 = 1 := by
  have h := C6_exec_first_set readyState 1 (.data (some 1) twoSets) rfl rfl
  exact ⟨h.2.2.1 (some 1) { rows := [[1]], columns := ["a"] }
    [{ rows := [[2]], columns := ["b"] }] rfl, h.1⟩

theorem fileMutation_spec (t : MessageType) (s : ClientState) (k : QueryKey)
    (resp : OutputMessage) (hook : Option (Except Err Unit)) (p : String)
    (ck : QueryKey) :
    ∃ mid, (fileMutation t s k resp hook p ck).1 =
        Event.lockAcquire .exclusive :: mid ++ [Event.lockRelease] ∧
      finalBypass false (fileMutation t s k resp hook p ck).1 = false ∧
      (∀ h, hook = some h → exceptOk (createQueryRT s t k resp).2 = true →
        Event.hookRun ∈ mid) := by
  refine ⟨(fileMutationTry t s k resp hook p ck).1 ++ [Event.setBypass false],
    ?_, ?_, ?_⟩
  · simp [fileMutation, mutationLock]
  · simp [fileMutation, mutationLock, finalBypass, finalBypass_append]
  · intro hk hhook hok
    subst hhook
    rcases hq : (createQueryRT s t k resp).2 with e | m
    · rw [hq] at hok
      simp [exceptOk] at hok
    · cases hk <;> simp [fileMutationTry, hq]

/-- C7: for `overwriteDatabaseFile` and `deleteDatabaseFile`, the exclusive
lock is released and the `bypassMutationLock` flag ends up `false` on every
exit path — normal completion, a failing import/delete round trip, and a
throwing `beforeUnlock` hook alike (the trace always starts with the
exclusive acquisition and ends with the release, and its last `setBypass`
write is `false`); when the round trip resolves and a hook was supplied, the
hook runs strictly inside the lock window. -/
theorem C7_file_ops_release_lock (s : ClientState) (k : QueryKey)
    (resp : OutputMessage) (hook : Option (Except Err Unit)) (p : String)
    (ck : QueryKey) :
    (∃ mid, (overwriteDatabaseFile s k resp hook p ck).1 =
        Event.lockAcquire .exclusive :: mid ++ [Event.lockRelease] ∧
      finalBypass false (overwriteDatabaseFile s k resp hook p ck).1 = false ∧
      (∀ h, hook = some h →
        exceptOk (createQueryRT s .importMsg k resp).2 = true →
        Event.hookRun ∈ mid)) ∧
    (∃ mid, (deleteDatabaseFile s k resp hook p ck).1 =
        Event.lockAcquire .exclusive :: mid ++ [Event.lockRelease] ∧
      finalBypass false (deleteDatabaseFile s k resp hook p ck).1 = false ∧
      (∀ h, hook = some h →
        exceptOk (createQueryRT s .delete k resp).2 = true →
        Event.hookRun ∈ mid)) :=
  ⟨fileMutation_spec .importMsg s k resp hook p ck,
    fileMutation_spec .delete s k resp hook p ck⟩

/-- Witness for C7: overwriting on a healthy client with a succeeding hook
acquires the exclusive lock first, runs the hook inside the lock window,
releases last, and leaves the bypass flag `false`. -/
theorem C7_file_ops_release_lock_witness :
    ∃ mid, (overwriteDatabaseFile readyState 0 (.success (some 0))
        (some (.ok ())) "db.sqlite3" 1).1 =
        Event.lockAcquire .exclusive :: mid ++ [Event.lockRelease] ∧
      finalBypass false (overwriteDatabaseFile readyState 0 (.success (some 0))
        (some (.ok ())) "db.sqlite3" 1).1 = false ∧
      Event.hookRun ∈ mid := by
  obtain ⟨mid, h1, h2, h3⟩ := (C7_file_ops_release_lock readyState 0
    (.success (some 0)) (some (.ok ())) "db.sqlite3" 1).1
  exact ⟨mid, h1, h2, h3 (.ok ()) rfl (by decide)⟩

/-- Number of reinitialization notices posted in a trace. -/
def reinitCount (tr : List Event) : Nat :=
  tr.countP fun e =>
    match e with
    | .reinitPost _ _ => true
    | _ => false

/-- C9 counterexample: an `overwriteDatabaseFile` call whose import round
trip rejects posts no reinitialization notice at all — the
`this.reinitChannel.postMessage(this.clientKey)` line sits after the
awaited import inside the `try` block, so a thrown failure skips it, refuting
the claim that every call is followed by the broadcast. -/
theorem C9_counterexample :
    reinitCount (overwriteDatabaseFile readyState 0
      (.error (some 0) "import failed") none "db.sqlite3" 1).1 = 0 ∧
    exceptOk (overwriteDatabaseFile readyState 0
      (.error (some 0) "import failed") none "db.sqlite3" 1).2 = false := by
  decide

theorem fileMutation_reinit (t : MessageType) (s : ClientState) (k : QueryKey)
    (resp : OutputMessage) (hook : Option (Except Err Unit)) (p : String)
    (ck : QueryKey) (hok : (fileMutation t s k resp hook p ck).2 = .ok ()) :
    Event.reinitPost (reinitChannelName p) ck ∈
      (fileMutation t s k resp hook p ck).1 := by
  rw [fileMutation, mutationLock_snd] at hok
  have hmem : Event.reinitPost (reinitChannelName p) ck ∈
      (fileMutationTry t s k resp hook p ck).1 := by
    rcases hq : (createQueryRT s t k resp).2 with e | m
    · simp [fileMutationTry, hq] at hok
    · cases hook with
      | none => simp [fileMutationTry, hq]
      | some hkk =>
        cases hkk with
        | ok _ => simp [fileMutationTry, hq]
        | error e => simp [fileMutationTry, hq] at hok
  simp [fileMutation, mutationLock, List.mem_append]
  exact hmem

/-- C9 amended: every `overwriteDatabaseFile` and every `deleteDatabaseFile`
call that completes successfully posts a reinitialization notice on the
broadcast channel named from the database path, carrying the originating
client's `clientKey` as payload; a call whose import/delete round trip or
`beforeUnlock` hook throws posts no notice. -/
theorem C9_reinit_broadcast (s : ClientState) (k : QueryKey)
    (resp : OutputMessage) (hook : Option (Except Err Unit)) (p : String)
    (ck : QueryKey) :
    ((overwriteDatabaseFile s k resp hook p ck).2 = .ok () →
      Event.reinitPost (reinitChannelName p) ck ∈
        (overwriteDatabaseFile s k resp hook p ck).1) ∧
    ((deleteDatabaseFile s k resp hook p ck).2 = .ok () →
      Event.reinitPost (reinitChannelName p) ck ∈
        (deleteDatabaseFile s k resp hook p ck).1) :=
  ⟨fun hok => fileMutation_reinit .importMsg s k resp hook p ck hok,
    fun hok => fileMutation_reinit .delete s k resp hook p ck hok⟩

/-- Witness for C9: a successful delete on a healthy client posts the notice
on `_sqlocal_reinit_(db.sqlite3)` with the client key `1`. -/
theorem C9_reinit_broadcast_witness :
    Event.reinitPost (reinitChannelName "db.sqlite3") 1 ∈
      (deleteDatabaseFile readyState 0 (.success (some 0)) none
        "db.sqlite3" 1).1 :=
  (C9_reinit_broadcast readyState 0 (.success (some 0)) none
    "db.sqlite3" 1).2 rfl

/-- C8: for every message passed through `createQuery`, lock acquisition is
skipped exactly when the client's `bypassMutationLock` flag is set or the
message kind is `import` or `delete`; every message that is admitted acquires
the lock in `shared` mode (no other mode is ever used by `createQuery`). -/
theorem C8_lock_skip (s : ClientState) (t : MessageType) (k : QueryKey)
    (resp : OutputMessage) :
    (Event.lockAcquire .shared ∈ (createQueryRT s t k resp).1 ↔
      ¬(s.bypassMutationLock = true ∨ t = .importMsg ∨ t = .delete)) ∧
    (∀ m, Event.lockAcquire m ∈ (createQueryRT s t k resp).1 →
      m = .shared) := by
  have hb : (createQueryBypass s t = true) ↔
      (s.bypassMutationLock = true ∨ t = .importMsg ∨ t = .delete) := by
    simp [createQueryBypass, or_assoc]
  by_cases hby : createQueryBypass s t = true
  · rw [createQueryRT, mutationLock, if_pos hby]
    exact ⟨⟨fun hmem => absurd hmem (lockAcquire_not_mem_body s t k resp .shared),
      fun hn => absurd (hb.mp hby) hn⟩,
      fun m hmem => absurd hmem (lockAcquire_not_mem_body s t k resp m)⟩
  · rw [createQueryRT, mutationLock, if_neg hby]
    refine ⟨⟨fun _ hcontra => hby (hb.mpr hcontra), fun _ => by simp⟩, ?_⟩
    intro m hmem
    rcases List.mem_cons.mp hmem with h | h
    · simpa using h
    · rcases List.mem_append.mp h with h | h
      · exact absurd h (lockAcquire_not_mem_body s t k resp m)
      · simp at h

/-- Witness for C8: an ordinary `query` is admitted under the shared lock,
while an `import` skips acquisition. -/
theorem C8_lock_skip_witness :
    Event.lockAcquire .shared ∈
      (createQueryRT readyState .query 0 (.success none)).1 ∧
    Event.lockAcquire .shared ∉
      (createQueryRT readyState .importMsg 0 (.success none)).1 := by
  constructor
  · exact (C8_lock_skip readyState .query 0 (.success none)).1.mpr (by decide)
  · intro hmem
    exact ((C8_lock_skip readyState .importMsg 0 (.success none)).1.mp hmem)
      (Or.inr (Or.inl rfl))

/-- C10: for `createCallbackFunction` and `createScalarFunction`, the local
registry (the `userCallbacks` map, or the worker proxy's named slot) is
updated only after the `function`-registration round trip resolves: a
rejected registration leaves the whole client state unchanged, while a
resolved one registers the name (the proxy slot only when a proxy exists). -/
theorem C10_registration_after_resolve (s : ClientState) (nm : String)
    (k : QueryKey) (resp : OutputMessage) :
    (∀ e, (createCallbackFunction s nm k resp).2.2 = .error e →
      (createCallbackFunction s nm k resp).2.1 = s) ∧
    ((createCallbackFunction s nm k resp).2.2 = .ok () →
      nm ∈ (createCallbackFunction s nm k resp).2.1.userCallbacks) ∧
    (∀ e, (createScalarFunction s nm k resp).2.2 = .error e →
      (createScalarFunction s nm k resp).2.1 = s) ∧
    ((createScalarFunction s nm k resp).2.2 = .ok () →
      s.proxyAttached = true →
      nm ∈ (createScalarFunction s nm k resp).2.1.proxySlots) := by
  rcases hq : (createQueryRT s .function k resp).2 with e | m
  · refine ⟨?_, ?_, ?_, ?_⟩
    · intro e' _
      simp [createCallbackFunction, hq]
    · intro he
      simp [createCallbackFunction, hq] at he
    · intro e' _
      simp [createScalarFunction, hq]
    · intro he
      simp [createScalarFunction, hq] at he
  · refine ⟨?_, ?_, ?_, ?_⟩
    · intro e' he
      simp [createCallbackFunction, hq] at he
    · intro _
      simp only [createCallbackFunction, hq]
      exact mem_mapSet _ _
    · intro e' he
      simp [createScalarFunction, hq] at he
    · intro _ hp
      simp only [createScalarFunction, hq, hp, if_true]
      exact mem_mapSet _ _

/-- Witness for C10: a rejected registration leaves the state unchanged, a
resolved one registers the name. -/
theorem C10_registration_after_resolve_witness :
    (createCallbackFunction readyState "fn" 0
      (.error (some 0) "nope")).2.1 = readyState ∧
    "fn" ∈ (createCallbackFunction readyState "fn" 0
      (.success (some 0))).2.1.userCallbacks := by
  constructor
  · exact (C10_registration_after_resolve readyState "fn" 0
      (.error (some 0) "nope")).1 "nope" rfl
  · exact (C10_registration_after_resolve readyState "fn" 0
      (.success (some 0))).2.1 rfl

end SQLocal
